import Mathlib

/-!
# Verification of manokit's `Email` builder (`manokit/__init__.py`)

A shallow embedding of the mutable `Email` builder class: Python `set`s become
`Finset String`, file-system access becomes an explicit oracle
`String → Option FileInfo` (`none` models a path whose `stat()` raises
`FileNotFoundError`), and every method returns the possibly-updated state
together with an `Except` outcome recording the Python return value
(`return self` vs a bare `return`, i.e. `None`) or the exception raised.
-/

namespace Manokit

/-- The Python exception kinds raised on the code paths modelled here.
`typeError` stands for Python's built-in `TypeError`, `fileNotFoundError`
for the `OSError` subclass raised by `Path.stat()` on a missing path;
the rest are manokit's own exception classes from `manokit/exceptions.py`
plus the built-in `ValueError`. -/
inductive PyError where
  | notAValidEmailAddressError
  | attachmentError
  | emailError
  | valueError
  | fileNotFoundError
  | typeError
deriving DecidableEq, Repr

/-- The value a builder method hands back when it returns normally:
`selfRet` models `return self`, `noneRet` models a bare `return`
(Python `None`). -/
inductive Ret where
  | selfRet
  | noneRet
deriving DecidableEq, Repr

/-! ## The default e-mail validator

`Email._default_email_validator` matches the address against the regex
`^[-_+.\d\w]+@[-_+\d\w]+(?:\.{1}[\w]+)+$` (case-insensitively).  Since
neither character class contains `@`, and neither the domain class nor
`\w` contains `.`, the regex is equivalent to: exactly one `@`; the local
part non-empty over `[-_+.\d\w]`; the domain split on `.` into a first
non-empty segment over `[-_+\d\w]` followed by at least one non-empty
segment over `[\w]`.  We implement that split-based reading directly. -/

/-- Split a character list at every occurrence of `sep`; the separators are
dropped and empty pieces are kept, as with Python's `str.split(sep)`. -/
def splitOnChar (sep : Char) : List Char → List (List Char)
  | [] => [[]]
  | c :: cs =>
    let r := splitOnChar sep cs
    if c = sep then [] :: r
    else
      match r with
      | [] => [[c]]
      | piece :: rest => (c :: piece) :: rest

/-- The regex class `\w` (with `re.IGNORECASE`): letters, digits, underscore. -/
def isWordChar (c : Char) : Bool := c.isAlphanum || c = '_'

/-- The regex class `[-_+.\d\w]` for the local part. -/
def isLocalChar (c : Char) : Bool :=
  c = '-' || c = '_' || c = '+' || c = '.' || c.isDigit || isWordChar c

/-- The regex class `[-_+\d\w]` for the first domain segment. -/
def isDomainChar (c : Char) : Bool :=
  c = '-' || c = '_' || c = '+' || c.isDigit || isWordChar c

/-- `Email._default_email_validator`: full match of the address against
`^[-_+.\d\w]+@[-_+\d\w]+(?:\.{1}[\w]+)+$`. -/
def default_email_validator (address : String) : Bool :=
  match splitOnChar '@' address.data with
  | [loc, dom] =>
    !loc.isEmpty && loc.all isLocalChar &&
    (match splitOnChar '.' dom with
     | seg :: rest =>
       !seg.isEmpty && seg.all isDomainChar &&
       !rest.isEmpty && rest.all (fun t => !t.isEmpty && t.all isWordChar)
     | [] => false)
  | _ => false

/-! ## Address sets (`rec` / `cc` / `bcc`)

In any sequence consisting only of `add_recipient` / `add_cc` / `add_bcc`
calls on a fresh `Email`, all entries of `self.email_validators` still hold
the one shared `_default_email_validator`, so each operation takes the
validator it consults (`self.email_validators[scope]`) as the explicit
parameter `v`. -/

/-- The three address sets of an `Email` draft (`self.rec`, `self.cc`,
`self.bcc`), each a Python `set` of address strings. -/
structure AddrState where
  rec_ : Finset String
  cc : Finset String
  bcc : Finset String
deriving DecidableEq

/-- The address sets of a freshly constructed `Email`: all empty. -/
def initAddrState : AddrState := ⟨∅, ∅, ∅⟩

/-- `Email.add_recipient`: validate with `email_validators["recipients"]`
(raising `NotAValidEmailAddressError` on failure), then insert into `rec`
unless the address is already in `cc` or in `bcc`; finally `return self`. -/
def add_recipient (v : String → Bool) (st : AddrState) (address : String) :
    AddrState × Except PyError Ret :=
  if v address = false then (st, .error .notAValidEmailAddressError)
  else if address ∉ st.cc ∧ address ∉ st.bcc then
    ({ st with rec_ := insert address st.rec_ }, .ok .selfRet)
  else (st, .ok .selfRet)

/-- `Email.add_cc`: validate with `email_validators["cc"]`, then insert into
`cc` unless the address is already in `rec` or in `bcc`; `return self`. -/
def add_cc (v : String → Bool) (st : AddrState) (address : String) :
    AddrState × Except PyError Ret :=
  if v address = false then (st, .error .notAValidEmailAddressError)
  else if address ∉ st.rec_ ∧ address ∉ st.bcc then
    ({ st with cc := insert address st.cc }, .ok .selfRet)
  else (st, .ok .selfRet)

/-- `Email.add_bcc`: validate with `email_validators["bcc"]`, then insert into
`bcc` unless the address is already in `rec` or in `cc`; `return self`. -/
def add_bcc (v : String → Bool) (st : AddrState) (address : String) :
    AddrState × Except PyError Ret :=
  if v address = false then (st, .error .notAValidEmailAddressError)
  else if address ∉ st.rec_ ∧ address ∉ st.cc then
    ({ st with bcc := insert address st.bcc }, .ok .selfRet)
  else (st, .ok .selfRet)

/-- One call in a sequence of address-adding builder calls. -/
inductive AddrOp where
  | addRecipient (address : String)
  | addCc (address : String)
  | addBcc (address : String)

/-- The state after one address-adding call; a call that raises
`NotAValidEmailAddressError` leaves the three sets untouched (the raise
happens before any mutation). -/
def applyAddrOp (v : String → Bool) (st : AddrState) : AddrOp → AddrState
  | .addRecipient a => (add_recipient v st a).1
  | .addCc a => (add_cc v st a).1
  | .addBcc a => (add_bcc v st a).1

/-- The state after a whole sequence of address-adding calls. -/
def runAddrOps (v : String → Bool) (st : AddrState) : List AddrOp → AddrState
  | [] => st
  | op :: rest => runAddrOps v (applyAddrOp v st op) rest

/-- The invariant maintained by the address operations: the three sets are
pairwise disjoint and every member has passed the (shared) validator. -/
def AddrInvariant (v : String → Bool) (st : AddrState) : Prop :=
  Disjoint st.rec_ st.cc ∧ Disjoint st.rec_ st.bcc ∧ Disjoint st.cc st.bcc ∧
  (∀ a ∈ st.rec_, v a = true) ∧ (∀ a ∈ st.cc, v a = true) ∧
  (∀ a ∈ st.bcc, v a = true)

/-! ## The validator registry (`self.email_validators`) -/

/-- The four entries of the `self.email_validators` dict. -/
structure Validators where
  author : String → Bool
  recipients : String → Bool
  cc : String → Bool
  bcc : String → Bool

/-- The registry set up by `Email.__init__`: every scope maps to
`_default_email_validator`. -/
def initValidators : Validators :=
  ⟨default_email_validator, default_email_validator,
   default_email_validator, default_email_validator⟩

/-- The scope names accepted by `set_custom_email_validator`'s loop check
`s not in ["all", "author", "recipients", "cc", "bcc"]`. -/
def allowedScopes : List String := ["all", "author", "recipients", "cc", "bcc"]

/-- One assignment `self.email_validators[s] = validator`.  Inside the loop
`s` is never `"all"` (a scopes list containing `"all"` returns earlier), so
only the four real scope keys are ever written. -/
def setScope (validator : String → Bool) (vs : Validators) (s : String) :
    Validators :=
  if s = "author" then { vs with author := validator }
  else if s = "recipients" then { vs with recipients := validator }
  else if s = "cc" then { vs with cc := validator }
  else if s = "bcc" then { vs with bcc := validator }
  else vs

/-- The `for s in scopes` loop of `set_custom_email_validator`: each
iteration first checks `s` against the allowed names, raising `ValueError`
on an unknown name (leaving the assignments already made in place), and
otherwise overwrites that scope's validator. -/
def setValidatorLoop (validator : String → Bool) (vs : Validators) :
    List String → Validators × Except PyError Unit
  | [] => (vs, .ok ())
  | s :: rest =>
    if s ∉ allowedScopes then (vs, .error .valueError)
    else setValidatorLoop validator (setScope validator vs s) rest

/-- `Email.set_custom_email_validator`: if `"all"` occurs in `scopes`, all
four scopes get the supplied validator and the method returns; otherwise the
scopes list is processed one by one. -/
def set_custom_email_validator (validator : String → Bool) (vs : Validators)
    (scopes : List String) : Validators × Except PyError Unit :=
  if "all" ∈ scopes then
    (⟨validator, validator, validator, validator⟩, .ok ())
  else setValidatorLoop validator vs scopes

/-! ## Paths and the attachment budget

`add_attachment` works on `pathlib.Path` values: `p = Path(path)` performs
purely lexical normalization (spurious slashes and single-dot components are
collapsed; nothing is resolved against the filesystem), and `p in
self.attachments` compares those normalized values.  The filesystem itself is
an oracle `String → Option FileInfo`: `none` means `p.stat()` raises
`FileNotFoundError`; `some info` carries `st_size` and `p.is_file()`. -/

/-- `true` iff the path string starts with `/`. -/
def isAbsolute (s : String) : Bool :=
  match s.data with
  | '/' :: _ => true
  | _ => false

/-- Join path segments with `/`. -/
def joinSegs : List String → String
  | [] => ""
  | [s] => s
  | s :: rest => s ++ "/" ++ joinSegs rest

/-- `Path(path)`: lexical normalization as performed by `pathlib` — split on
`/`, drop empty and `"."` components, and re-join, keeping a leading `/`. -/
def pathOf (s : String) : String :=
  let segs := (splitOnChar '/' s.data).filter
    (fun l => !l.isEmpty && !(l == ['.']))
  (if isAbsolute s then "/" else "") ++ joinSegs (segs.map String.mk)

/-- What `stat()` and `is_file()` report about an existing path. -/
structure FileInfo where
  isFile : Bool
  size : Nat
deriving DecidableEq, Repr

/-- The attachment-related fields of an `Email` draft. `available_filesize`
is a Python `int`, so it is modelled as `Int` and the code's
`rem_filesize < 0` test is kept verbatim. -/
structure AttachState where
  attachments : Finset String
  available_filesize : Int
  FILESIZE_LIMIT : Int
deriving DecidableEq

/-- The attachment fields of a fresh `Email(host, port,
filesize_limit=limit)`: no attachments, full budget. -/
def initAttachState (limit : Int) : AttachState := ⟨∅, limit, limit⟩

/-- `Email.add_attachment`, keeping the source's check order: membership in
`self.attachments` (bare `return`), then `p.stat().st_size == 0` (bare
`return`; `stat()` raises `FileNotFoundError` when the path does not exist),
then `not p.is_file()` (`AttachmentError`), then the budget check
(`AttachmentError`), and finally the two mutations and `return self`. -/
def add_attachment (fs : String → Option FileInfo) (st : AttachState)
    (path : String) : AttachState × Except PyError Ret :=
  let p := pathOf path
  if p ∈ st.attachments then (st, .ok .noneRet)
  else
    match fs p with
    | none => (st, .error .fileNotFoundError)
    | some info =>
      if info.size = 0 then (st, .ok .noneRet)
      else if info.isFile = false then (st, .error .attachmentError)
      else
        let rem : Int := st.available_filesize - (info.size : Int)
        if rem < 0 then (st, .error .attachmentError)
        else
          ({ st with attachments := insert p st.attachments,
                     available_filesize := rem }, .ok .selfRet)

/-- Modelled from the spec: "`addAttachment(pathLike)`: resolve to a
canonical absolute path" — the resolution `Path.resolve()` would perform,
i.e. interpret the spelling relative to the working directory `cwd` and
normalize.  The source never calls it; it exists only to state the claimed
identity and compare it with the identity the code actually uses. -/
def resolvePath (cwd : String) (s : String) : String :=
  if isAbsolute s then pathOf s else pathOf (cwd ++ "/" ++ s)

/-! ## Subject and body -/

/-- The `subject` and `body` fields of a draft. -/
structure ContentState where
  subject : String
  body : String
deriving DecidableEq

/-- `Email.set_body`: overwrite the body, `return self`. -/
def set_body (st : ContentState) (body : String) :
    ContentState × Except PyError Ret :=
  ({ st with body := body }, .ok .selfRet)

/-- `Email.set_subject`: overwrite the subject, `return self`. -/
def set_subject (st : ContentState) (subject : String) :
    ContentState × Except PyError Ret :=
  ({ st with subject := subject }, .ok .selfRet)

/-! ## Send -/

/-- One entry of the dict returned by `smtplib`'s `sendmail`: a recipient
that was refused, with the SMTP error code and message. -/
structure SendFailure where
  recipient : String
  code : Nat
  reason : String
deriving DecidableEq, Repr

deriving instance DecidableEq for Except

/-- The outcome of `Email.send`: the draft state (which `send` never
mutates), the Python outcome, and whether the message was composed and
handed to `sendmail` (false when `send` raised before reaching the
composition step). -/
structure SendResult where
  state : AddrState
  outcome : Except PyError Ret
  transmitted : Bool
deriving DecidableEq

/-- `Email.send`.  `errs` is the dict `sendmail` returns (given here as a
list of entries).  The guard `len(self.rec) < 1` raises `EmailError` before
any composition.  Otherwise the MIME message is composed and `sendmail`
called; composition reads no draft field destructively, so the state passes
through unchanged.  When `errs` is non-empty the source builds the error
message with `errs.keys()[0]` — in Python 3 a `dict_keys` view is not
subscriptable, so that expression raises `TypeError` and the intended
`EmailError` is never constructed.  When `errs` is empty, `return self`. -/
def send (st : AddrState) (errs : List SendFailure) : SendResult :=
  if st.rec_.card < 1 then ⟨st, .error .emailError, false⟩
  else if errs.isEmpty = false then ⟨st, .error .typeError, true⟩
  else ⟨st, .ok .selfRet, true⟩

/-! ## Helper lemmas: the address-set invariant -/

lemma addrInvariant_init (v : String → Bool) : AddrInvariant v initAddrState := by
  refine ⟨?_, ?_, ?_, ?_, ?_, ?_⟩ <;> simp [initAddrState, AddrInvariant]

lemma addrInvariant_add_recipient (v : String → Bool) (st : AddrState)
    (a : String) (h : AddrInvariant v st) :
    AddrInvariant v (add_recipient v st a).1 := by
  unfold add_recipient
  cases hv : v a with
  | false => simpa using h
  | true =>
    by_cases hm : a ∉ st.cc ∧ a ∉ st.bcc
    · obtain ⟨h1, h2, h3, h4, h5, h6⟩ := h
      simp only [hv, Bool.true_eq_false, if_false, hm, if_true]
      refine ⟨?_, ?_, h3, ?_, h5, h6⟩
      · exact Finset.disjoint_insert_left.mpr ⟨hm.1, h1⟩
      · exact Finset.disjoint_insert_left.mpr ⟨hm.2, h2⟩
      · intro x hx
        rcases Finset.mem_insert.mp hx with rfl | hx
        · exact hv
        · exact h4 x hx
    · simpa [hv, hm] using h

lemma addrInvariant_add_cc (v : String → Bool) (st : AddrState)
    (a : String) (h : AddrInvariant v st) :
    AddrInvariant v (add_cc v st a).1 := by
  unfold add_cc
  cases hv : v a with
  | false => simpa using h
  | true =>
    by_cases hm : a ∉ st.rec_ ∧ a ∉ st.bcc
    · obtain ⟨h1, h2, h3, h4, h5, h6⟩ := h
      simp only [hv, Bool.true_eq_false, if_false, hm, if_true]
      refine ⟨?_, h2, ?_, h4, ?_, h6⟩
      · exact Finset.disjoint_insert_right.mpr ⟨hm.1, h1⟩
      · exact Finset.disjoint_insert_left.mpr ⟨hm.2, h3⟩
      · intro x hx
        rcases Finset.mem_insert.mp hx with rfl | hx
        · exact hv
        · exact h5 x hx
    · simpa [hv, hm] using h

lemma addrInvariant_add_bcc (v : String → Bool) (st : AddrState)
    (a : String) (h : AddrInvariant v st) :
    AddrInvariant v (add_bcc v st a).1 := by
  unfold add_bcc
  cases hv : v a with
  | false => simpa using h
  | true =>
    by_cases hm : a ∉ st.rec_ ∧ a ∉ st.cc
    · obtain ⟨h1, h2, h3, h4, h5, h6⟩ := h
      simp only [hv, Bool.true_eq_false, if_false, hm, if_true]
      refine ⟨h1, ?_, ?_, h4, h5, ?_⟩
      · exact Finset.disjoint_insert_right.mpr ⟨hm.1, h2⟩
      · exact Finset.disjoint_insert_right.mpr ⟨hm.2, h3⟩
      · intro x hx
        rcases Finset.mem_insert.mp hx with rfl | hx
        · exact hv
        · exact h6 x hx
    · simpa [hv, hm] using h

lemma addrInvariant_applyAddrOp (v : String → Bool) (st : AddrState)
    (op : AddrOp) (h : AddrInvariant v st) :
    AddrInvariant v (applyAddrOp v st op) := by
  cases op with
  | addRecipient a => exact addrInvariant_add_recipient v st a h
  | addCc a => exact addrInvariant_add_cc v st a h
  | addBcc a => exact addrInvariant_add_bcc v st a h

lemma addrInvariant_runAddrOps (v : String → Bool) (st : AddrState)
    (ops : List AddrOp) (h : AddrInvariant v st) :
    AddrInvariant v (runAddrOps v st ops) := by
  induction ops generalizing st with
  | nil => exact h
  | cons op rest ih =>
    exact ih (applyAddrOp v st op) (addrInvariant_applyAddrOp v st op h)

/-- In an invariant state, adding to `rec` an address already held by `cc`
or by `bcc` raises nothing and changes nothing: the address passed the
shared validator when it entered its set, and the membership guard fails. -/
lemma add_recipient_noop (v : String → Bool) (st : AddrState) (a : String)
    (hinv : AddrInvariant v st) (ha : a ∈ st.cc ∨ a ∈ st.bcc) :
    add_recipient v st a = (st, .ok .selfRet) := by
  obtain ⟨-, -, -, -, h5, h6⟩ := hinv
  have hv : v a = true := by
    rcases ha with ha | ha
    · exact h5 a ha
    · exact h6 a ha
  have hm : ¬(a ∉ st.cc ∧ a ∉ st.bcc) := by
    rcases ha with ha | ha
    · exact fun hc => hc.1 ha
    · exact fun hc => hc.2 ha
  simp [add_recipient, hv, hm]

lemma add_cc_noop (v : String → Bool) (st : AddrState) (a : String)
    (hinv : AddrInvariant v st) (ha : a ∈ st.rec_ ∨ a ∈ st.bcc) :
    add_cc v st a = (st, .ok .selfRet) := by
  obtain ⟨-, -, -, h4, -, h6⟩ := hinv
  have hv : v a = true := by
    rcases ha with ha | ha
    · exact h4 a ha
    · exact h6 a ha
  have hm : ¬(a ∉ st.rec_ ∧ a ∉ st.bcc) := by
    rcases ha with ha | ha
    · exact fun hc => hc.1 ha
    · exact fun hc => hc.2 ha
  simp [add_cc, hv, hm]

lemma add_bcc_noop (v : String → Bool) (st : AddrState) (a : String)
    (hinv : AddrInvariant v st) (ha : a ∈ st.rec_ ∨ a ∈ st.cc) :
    add_bcc v st a = (st, .ok .selfRet) := by
  obtain ⟨-, -, -, h4, h5, -⟩ := hinv
  have hv : v a = true := by
    rcases ha with ha | ha
    · exact h4 a ha
    · exact h5 a ha
  have hm : ¬(a ∉ st.rec_ ∧ a ∉ st.cc) := by
    rcases ha with ha | ha
    · exact fun hc => hc.1 ha
    · exact fun hc => hc.2 ha
  simp [add_bcc, hv, hm]

/-- C1: after any sequence of `add_recipient`, `add_cc` and `add_bcc` calls
on a fresh `Email` (whose four validators are all the default one, and which
such a sequence never changes), the sets `rec`, `cc` and `bcc` are pairwise
disjoint, and each add call for an address already present in one of the
other two sets returns `self` with no exception and no mutation of any of
the three sets. -/
theorem address_sets_mutual_exclusion (ops : List AddrOp) (st : AddrState)
    (hst : st = runAddrOps default_email_validator initAddrState ops) :
    (Disjoint st.rec_ st.cc ∧ Disjoint st.rec_ st.bcc ∧
      Disjoint st.cc st.bcc) ∧
    (∀ a, a ∈ st.cc ∨ a ∈ st.bcc →
      add_recipient default_email_validator st a = (st, .ok .selfRet)) ∧
    (∀ a, a ∈ st.rec_ ∨ a ∈ st.bcc →
      add_cc default_email_validator st a = (st, .ok .selfRet)) ∧
    (∀ a, a ∈ st.rec_ ∨ a ∈ st.cc →
      add_bcc default_email_validator st a = (st, .ok .selfRet)) := by
  subst hst
  have hinv := addrInvariant_runAddrOps default_email_validator initAddrState
    ops (addrInvariant_init default_email_validator)
  refine ⟨⟨hinv.1, hinv.2.1, hinv.2.2.1⟩, ?_, ?_, ?_⟩
  · exact fun a ha => add_recipient_noop default_email_validator _ a hinv ha
  · exact fun a ha => add_cc_noop default_email_validator _ a hinv ha
  · exact fun a ha => add_bcc_noop default_email_validator _ a hinv ha

/-- Witness for C1: after `add_cc "a@b.com"` on a fresh draft, calling
`add_recipient "a@b.com"` returns `self` and changes nothing. -/
theorem address_sets_mutual_exclusion_witness :
    add_recipient default_email_validator ⟨∅, {"a@b.com"}, ∅⟩ "a@b.com" =
      (⟨∅, {"a@b.com"}, ∅⟩, .ok .selfRet) :=
  (address_sets_mutual_exclusion [AddrOp.addCc "a@b.com"]
    ⟨∅, {"a@b.com"}, ∅⟩ (by decide)).2.1 "a@b.com" (Or.inl (by decide))

/-! ## Helper lemmas: the validator registry -/

lemma setValidatorLoop_all_valid (validator : String → Bool)
    (vs : Validators) (scopes : List String)
    (h : ∀ s ∈ scopes, s ∈ allowedScopes) :
    setValidatorLoop validator vs scopes =
      (⟨if "author" ∈ scopes then validator else vs.author,
        if "recipients" ∈ scopes then validator else vs.recipients,
        if "cc" ∈ scopes then validator else vs.cc,
        if "bcc" ∈ scopes then validator else vs.bcc⟩, .ok ()) := by
  induction scopes generalizing vs with
  | nil => simp [setValidatorLoop]
  | cons s rest ih =>
    have hs : s ∈ allowedScopes := h s (List.mem_cons_self s rest)
    have hrest : ∀ x ∈ rest, x ∈ allowedScopes :=
      fun x hx => h x (List.mem_cons_of_mem s hx)
    rw [setValidatorLoop, if_neg (not_not_intro hs),
      ih (setScope validator vs s) hrest]
    simp only [allowedScopes, List.mem_cons, List.mem_singleton,
      List.not_mem_nil, or_false] at hs
    rcases hs with rfl | rfl | rfl | rfl | rfl <;>
      simp [setScope, List.mem_cons]

lemma setValidatorLoop_invalid_scope (validator : String → Bool)
    (vs : Validators) (scopes : List String)
    (h : ∃ s ∈ scopes, s ∉ allowedScopes) :
    (setValidatorLoop validator vs scopes).2 = .error .valueError := by
  induction scopes generalizing vs with
  | nil => simp at h
  | cons s rest ih =>
    by_cases hs : s ∈ allowedScopes
    · have hrest : ∃ x ∈ rest, x ∉ allowedScopes := by
        obtain ⟨x, hx, hxn⟩ := h
        rcases List.mem_cons.mp hx with rfl | hx
        · exact absurd hs hxn
        · exact ⟨x, hx, hxn⟩
      rw [setValidatorLoop, if_neg (not_not_intro hs)]
      exact ih (setScope validator vs s) hrest
    · rw [setValidatorLoop, if_pos hs]

/-- C9: a scopes list containing `"all"` replaces the validator of all four
scopes and raises nothing; a scopes list without `"all"` whose names are all
allowed replaces exactly the listed scopes, the others keeping their
validator; and a scopes list without `"all"` containing any name outside the
allowed set makes the call raise `ValueError`. -/
theorem set_custom_email_validator_spec (validator : String → Bool)
    (vs : Validators) (scopes : List String) :
    ("all" ∈ scopes →
      set_custom_email_validator validator vs scopes =
        (⟨validator, validator, validator, validator⟩, .ok ())) ∧
    ("all" ∉ scopes → (∀ s ∈ scopes, s ∈ allowedScopes) →
      set_custom_email_validator validator vs scopes =
        (⟨if "author" ∈ scopes then validator else vs.author,
          if "recipients" ∈ scopes then validator else vs.recipients,
          if "cc" ∈ scopes then validator else vs.cc,
          if "bcc" ∈ scopes then validator else vs.bcc⟩, .ok ())) ∧
    ("all" ∉ scopes → (∃ s ∈ scopes, s ∉ allowedScopes) →
      (set_custom_email_validator validator vs scopes).2 =
        .error .valueError) := by
  refine ⟨fun hall => ?_, fun hall hok => ?_, fun hall hbad => ?_⟩
  · rw [set_custom_email_validator, if_pos hall]
  · rw [set_custom_email_validator, if_neg hall]
    exact setValidatorLoop_all_valid validator vs scopes hok
  · rw [set_custom_email_validator, if_neg hall]
    exact setValidatorLoop_invalid_scope validator vs scopes hbad

/-- The custom predicate of the spec's concrete scenario:
`addr.endsWith("@examplecorp.com")`. -/
def examplecorp_validator (address : String) : Bool :=
  address.endsWith "@examplecorp.com"

/-- Witness for C9: replacing only the `recipients` validator on a fresh
registry leaves the other three scopes on the default validator. -/
theorem set_custom_email_validator_spec_witness :
    set_custom_email_validator examplecorp_validator initValidators
      ["recipients"] =
      (⟨default_email_validator, examplecorp_validator,
        default_email_validator, default_email_validator⟩, .ok ()) := by
  have h := (set_custom_email_validator_spec examplecorp_validator
    initValidators ["recipients"]).2.1 (by decide) (by decide)
  simpa [initValidators] using h

/-! ## Helper lemmas: attachments -/

/-- The successful branch of `add_attachment`: a not-yet-attached regular
file of non-zero size within budget is inserted and charged. -/
lemma add_attachment_success (fs : String → Option FileInfo)
    (st : AttachState) (path : String) (info : FileInfo)
    (hmem : pathOf path ∉ st.attachments)
    (hfs : fs (pathOf path) = some info)
    (hsz : info.size ≠ 0)
    (hfile : info.isFile = true)
    (hbud : (info.size : Int) ≤ st.available_filesize) :
    add_attachment fs st path =
      ({ st with attachments := insert (pathOf path) st.attachments,
                 available_filesize := st.available_filesize - info.size },
        .ok .selfRet) := by
  unfold add_attachment
  rw [if_neg hmem, hfs]
  simp only
  rw [if_neg hsz, if_neg (by simp [hfile]), if_neg (by omega)]

/-- C2: a not-yet-attached regular file of size `n` with
`0 < n ≤ available_filesize` is admitted — `available_filesize` drops by
exactly `n`, the path joins the attachment set, and `self` is returned —
and a second `add_attachment` with the same path is a no-op that leaves
both fields unchanged (returning `None`). -/
theorem add_attachment_within_budget (fs : String → Option FileInfo)
    (st : AttachState) (path : String) (info : FileInfo)
    (hmem : pathOf path ∉ st.attachments)
    (hfs : fs (pathOf path) = some info)
    (hsz : 0 < info.size)
    (hfile : info.isFile = true)
    (hbud : (info.size : Int) ≤ st.available_filesize) :
    (add_attachment fs st path).1.available_filesize =
      st.available_filesize - info.size ∧
    (add_attachment fs st path).1.attachments =
      insert (pathOf path) st.attachments ∧
    (add_attachment fs st path).2 = .ok .selfRet ∧
    add_attachment fs (add_attachment fs st path).1 path =
      ((add_attachment fs st path).1, .ok .noneRet) := by
  have h := add_attachment_success fs st path info hmem hfs
    (Nat.pos_iff_ne_zero.mp hsz) hfile hbud
  rw [h]
  refine ⟨rfl, rfl, rfl, ?_⟩
  unfold add_attachment
  rw [if_pos]
  exact Finset.mem_insert_self _ _

/-- The filesystem for the C2 witness: a single 30-byte regular file. -/
def fs_report30 : String → Option FileInfo := fun p =>
  if p = "/tmp/report.txt" then some ⟨true, 30⟩ else none

/-- Witness for C2: with a 60-byte budget, attaching a 30-byte file
succeeds and leaves 30 bytes of budget; attaching it again is a no-op. -/
theorem add_attachment_within_budget_witness :
    (add_attachment fs_report30 (initAttachState 60) "/tmp/report.txt").1.available_filesize = 30 ∧
    (add_attachment fs_report30 (initAttachState 60) "/tmp/report.txt").1.attachments = {"/tmp/report.txt"} ∧
    (add_attachment fs_report30 (initAttachState 60) "/tmp/report.txt").2 = .ok .selfRet ∧
    add_attachment fs_report30
      (add_attachment fs_report30 (initAttachState 60) "/tmp/report.txt").1
      "/tmp/report.txt" =
      ((add_attachment fs_report30 (initAttachState 60) "/tmp/report.txt").1,
        .ok .noneRet) :=
  add_attachment_within_budget fs_report30 (initAttachState 60)
    "/tmp/report.txt" ⟨true, 30⟩ (by decide) rfl (by decide) rfl (by decide)

/-- C3: a not-yet-attached regular file whose size exceeds the remaining
budget makes `add_attachment` raise `AttachmentError` with the draft
untouched — both `attachments` and `available_filesize` keep their values
(the mutations come after every check, so the call is atomic). -/
theorem add_attachment_over_budget (fs : String → Option FileInfo)
    (st : AttachState) (path : String) (info : FileInfo)
    (hmem : pathOf path ∉ st.attachments)
    (hfs : fs (pathOf path) = some info)
    (hfile : info.isFile = true)
    (hnn : 0 ≤ st.available_filesize)
    (hbud : st.available_filesize < (info.size : Int)) :
    add_attachment fs st path = (st, .error .attachmentError) := by
  have hsz : info.size ≠ 0 := by
    intro h0
    rw [h0] at hbud
    omega
  unfold add_attachment
  rw [if_neg hmem, hfs]
  simp only
  rw [if_neg hsz, if_neg (by simp [hfile]), if_pos (by omega)]

/-- Witness for C3: after the 30-byte file of the C2 scenario, a 70-byte
file no longer fits a 60-byte budget: `AttachmentError`, state unchanged. -/
theorem add_attachment_over_budget_witness :
    add_attachment (fun p => if p = "/tmp/big.bin" then some ⟨true, 70⟩ else none)
      ⟨{"/tmp/report.txt"}, 30, 60⟩ "/tmp/big.bin" =
      (⟨{"/tmp/report.txt"}, 30, 60⟩, .error .attachmentError) :=
  add_attachment_over_budget
    (fun p => if p = "/tmp/big.bin" then some ⟨true, 70⟩ else none)
    ⟨{"/tmp/report.txt"}, 30, 60⟩ "/tmp/big.bin" ⟨true, 70⟩
    (by decide) rfl rfl (by decide) (by decide)

/-- C4: whenever `stat()` reports size 0 for the constructed path, the call
returns `None` without raising and without touching the draft — whatever
the budget and whether or not the path is a regular file, since both
silent-return checks precede the `is_file` and budget checks. -/
theorem add_attachment_zero_size (fs : String → Option FileInfo)
    (st : AttachState) (path : String) (info : FileInfo)
    (hfs : fs (pathOf path) = some info)
    (hsz : info.size = 0) :
    add_attachment fs st path = (st, .ok .noneRet) := by
  unfold add_attachment
  by_cases hmem : pathOf path ∈ st.attachments
  · rw [if_pos hmem]
  · rw [if_neg hmem, hfs]
    simp only
    rw [if_pos hsz]

/-- Witness for C4: a zero-byte path that is not even a regular file, with
an exhausted budget, still neither raises nor mutates. -/
theorem add_attachment_zero_size_witness :
    add_attachment (fun p => if p = "/dev/null" then some ⟨false, 0⟩ else none)
      ⟨∅, 0, 60⟩ "/dev/null" = (⟨∅, 0, 60⟩, .ok .noneRet) :=
  add_attachment_zero_size
    (fun p => if p = "/dev/null" then some ⟨false, 0⟩ else none)
    ⟨∅, 0, 60⟩ "/dev/null" ⟨false, 0⟩ rfl rfl

/-- Counterexample to C5: for a path that does not exist at all (so not a
regular file, not attached, not reporting size 0), `add_attachment` raises
`FileNotFoundError` from `p.stat()` — not `AttachmentError` — because
`stat()` runs before `is_file()`. -/
theorem add_attachment_missing_file_counterexample :
    add_attachment (fun _ => none) (initAttachState 60) "missing.txt" =
      (initAttachState 60, .error .fileNotFoundError) ∧
    PyError.fileNotFoundError ≠ PyError.attachmentError :=
  ⟨rfl, by decide⟩

/-- C5 as amended: an *existing* path that is not a regular file (not
attached, size non-zero) fails with `AttachmentError`; a path that does not
exist fails with `FileNotFoundError` from `stat()`; either way the
attachment set and `available_filesize` are unchanged. -/
theorem add_attachment_not_regular_file (fs : String → Option FileInfo)
    (st : AttachState) (path : String) (info : FileInfo)
    (hmem : pathOf path ∉ st.attachments) :
    (fs (pathOf path) = some info → info.size ≠ 0 → info.isFile = false →
      add_attachment fs st path = (st, .error .attachmentError)) ∧
    (fs (pathOf path) = none →
      add_attachment fs st path = (st, .error .fileNotFoundError)) := by
  constructor
  · intro hfs hsz hfile
    unfold add_attachment
    rw [if_neg hmem, hfs]
    simp only
    rw [if_neg hsz, if_pos hfile]
  · intro hfs
    unfold add_attachment
    rw [if_neg hmem, hfs]

/-- Witness for the amended C5: a directory (existing, not a regular file,
size 4096) raises `AttachmentError`; a missing path raises
`FileNotFoundError`; both leave the draft unchanged. -/
theorem add_attachment_not_regular_file_witness :
    add_attachment (fun p => if p = "/tmp/dir" then some ⟨false, 4096⟩ else none)
      (initAttachState 60) "/tmp/dir" =
      (initAttachState 60, .error .attachmentError) ∧
    add_attachment (fun p => if p = "/tmp/dir" then some ⟨false, 4096⟩ else none)
      (initAttachState 60) "/tmp/ghost" =
      (initAttachState 60, .error .fileNotFoundError) :=
  ⟨(add_attachment_not_regular_file
      (fun p => if p = "/tmp/dir" then some ⟨false, 4096⟩ else none)
      (initAttachState 60) "/tmp/dir" ⟨false, 4096⟩ (by decide)).1 rfl
      (by decide) rfl,
   (add_attachment_not_regular_file
      (fun p => if p = "/tmp/dir" then some ⟨false, 4096⟩ else none)
      (initAttachState 60) "/tmp/ghost" ⟨false, 4096⟩ (by decide)).2 rfl⟩

/-- The filesystem for the C6 counterexample: one 5-byte regular file
reachable both as `a.txt` (relative to the working directory `/cwd`) and as
`/cwd/a.txt`. -/
def fs_two_spellings : String → Option FileInfo := fun p =>
  if p = "a.txt" ∨ p = "/cwd/a.txt" then some ⟨true, 5⟩ else none

/-- Counterexample to C6: the spellings `a.txt` and `/cwd/a.txt` resolve to
the same canonical absolute path, yet adding the first and then the second
is *not* a no-op the second time: the attachment set ends with two entries
for the one file and its size is charged twice (100 → 95 → 90), because
`add_attachment` never resolves the path — identity is `Path(path)`
itself. -/
theorem attachment_identity_counterexample :
    resolvePath "/cwd" "a.txt" = resolvePath "/cwd" "/cwd/a.txt" ∧
    add_attachment fs_two_spellings (initAttachState 100) "a.txt" =
      (⟨{"a.txt"}, 95, 100⟩, .ok .selfRet) ∧
    add_attachment fs_two_spellings
      (add_attachment fs_two_spellings (initAttachState 100) "a.txt").1
      "/cwd/a.txt" =
      (⟨insert "/cwd/a.txt" {"a.txt"}, 90, 100⟩, .ok .selfRet) ∧
    (insert "/cwd/a.txt" {"a.txt"} : Finset String).card = 2 :=
  ⟨by decide, by rfl, by rfl, by decide⟩

/-- C6 as amended: attachment identity is the lexical `Path` value built
from the argument, not a resolved canonical absolute path: after a
successful add of spelling `s1`, adding any spelling `s2` with the same
`Path` value (e.g. `./a.txt` after `a.txt`) is a no-op; distinct `Path`
values are attached — and charged — separately even when they refer to the
same file on disk. -/
theorem attachment_identity_is_lexical_path (fs : String → Option FileInfo)
    (st : AttachState) (s1 s2 : String) (info : FileInfo)
    (hpath : pathOf s1 = pathOf s2)
    (hmem : pathOf s1 ∉ st.attachments)
    (hfs : fs (pathOf s1) = some info)
    (hsz : info.size ≠ 0)
    (hfile : info.isFile = true)
    (hbud : (info.size : Int) ≤ st.available_filesize) :
    add_attachment fs (add_attachment fs st s1).1 s2 =
      ((add_attachment fs st s1).1, .ok .noneRet) := by
  rw [add_attachment_success fs st s1 info hmem hfs hsz hfile hbud]
  unfold add_attachment
  rw [if_pos]
  rw [← hpath]
  exact Finset.mem_insert_self _ _

/-- Witness for the amended C6: after attaching `a.txt`, attaching
`./a.txt` (the same `Path` value) is a no-op. -/
theorem attachment_identity_is_lexical_path_witness :
    add_attachment fs_two_spellings
      (add_attachment fs_two_spellings (initAttachState 100) "a.txt").1
      "./a.txt" =
      ((add_attachment fs_two_spellings (initAttachState 100) "a.txt").1,
        .ok .noneRet) :=
  attachment_identity_is_lexical_path fs_two_spellings (initAttachState 100)
    "a.txt" "./a.txt" ⟨true, 5⟩ (by decide) (by decide) rfl (by decide) rfl
    (by decide)

/-- C7: whenever the direct recipient set `rec` is empty — the `cc` and
`bcc` sets may be anything, including non-empty — `send` raises
`EmailError` before any composition or transmission, leaving the draft
untouched; cc/bcc-only messages are rejected. -/
theorem send_empty_recipient_list (st : AddrState) (errs : List SendFailure)
    (h : st.rec_ = ∅) :
    send st errs = ⟨st, .error .emailError, false⟩ := by
  unfold send
  rw [if_pos]
  rw [h]
  simp

/-- Witness for C7: a draft with non-empty `cc` and `bcc` but empty `rec`
is rejected with `EmailError`, nothing transmitted, even though the
transport would have reported no failure. -/
theorem send_empty_recipient_list_witness :
    send ⟨∅, {"cc@x.com"}, {"bcc@x.com"}⟩ [] =
      ⟨⟨∅, {"cc@x.com"}, {"bcc@x.com"}⟩, .error .emailError, false⟩ :=
  send_empty_recipient_list ⟨∅, {"cc@x.com"}, {"bcc@x.com"}⟩ [] rfl

/-- C8 at its failing input: when `sendmail` reports the failure
`{"bob@example.com": (550, "mailbox unavailable")}`, `send` raises
`TypeError` — the `f`-string on the `raise EmailError` line subscripts the
non-subscriptable `dict_keys` view `errs.keys()[0]`, so no `EmailError`
carrying the address, code and reason is ever built.  The other half of the
claim does hold: an empty mapping makes `send` return `self`. -/
theorem send_failure_mapping_typeerror :
    send ⟨{"to@x.com"}, ∅, ∅⟩
      [⟨"bob@example.com", 550, "mailbox unavailable"⟩] =
      ⟨⟨{"to@x.com"}, ∅, ∅⟩, .error .typeError, true⟩ ∧
    send ⟨{"to@x.com"}, ∅, ∅⟩ [] =
      ⟨⟨{"to@x.com"}, ∅, ∅⟩, .ok .selfRet, true⟩ ∧
    PyError.typeError ≠ PyError.emailError :=
  ⟨by rfl, by rfl, by decide⟩

/-- C10: `add_attachment` hands back `self` only when it actually admits a
new attachment; on its two silent branches — path already attached, or
reported size 0 — it executes a bare `return`, handing back `None`, while
`add_recipient`, `add_cc`, `add_bcc`, `set_body`, `set_subject` and `send`
hand back `self` whenever they return at all. -/
theorem method_return_values :
    (∀ (fs : String → Option FileInfo) (st : AttachState) (path : String),
      pathOf path ∈ st.attachments →
        add_attachment fs st path = (st, .ok .noneRet)) ∧
    (∀ (fs : String → Option FileInfo) (st : AttachState) (path : String)
        (info : FileInfo),
      pathOf path ∉ st.attachments → fs (pathOf path) = some info →
        info.size = 0 → add_attachment fs st path = (st, .ok .noneRet)) ∧
    (∀ (fs : String → Option FileInfo) (st : AttachState) (path : String),
      (add_attachment fs st path).2 = .ok .selfRet →
        pathOf path ∉ st.attachments ∧
        (add_attachment fs st path).1.attachments =
          insert (pathOf path) st.attachments) ∧
    (∀ (v : String → Bool) (st : AddrState) (a : String) (r : Ret),
      (add_recipient v st a).2 = .ok r → r = .selfRet) ∧
    (∀ (v : String → Bool) (st : AddrState) (a : String) (r : Ret),
      (add_cc v st a).2 = .ok r → r = .selfRet) ∧
    (∀ (v : String → Bool) (st : AddrState) (a : String) (r : Ret),
      (add_bcc v st a).2 = .ok r → r = .selfRet) ∧
    (∀ (st : ContentState) (b : String), (set_body st b).2 = .ok .selfRet) ∧
    (∀ (st : ContentState) (s : String),
      (set_subject st s).2 = .ok .selfRet) ∧
    (∀ (st : AddrState) (errs : List SendFailure) (r : Ret),
      (send st errs).outcome = .ok r → r = .selfRet) := by
  refine ⟨?_, ?_, ?_, ?_, ?_, ?_, fun st b => rfl, fun st s => rfl, ?_⟩
  · intro fs st path hmem
    unfold add_attachment
    rw [if_pos hmem]
  · intro fs st path info hmem hfs hsz
    unfold add_attachment
    rw [if_neg hmem, hfs]
    simp only
    rw [if_pos hsz]
  · intro fs st path h
    unfold add_attachment at h ⊢
    by_cases hmem : pathOf path ∈ st.attachments
    · rw [if_pos hmem] at h
      simp at h
    · rw [if_neg hmem] at h ⊢
      cases hfs : fs (pathOf path) with
      | none => rw [hfs] at h; simp at h
      | some info =>
        rw [hfs] at h
        simp only at h ⊢
        by_cases hsz : info.size = 0
        · rw [if_pos hsz] at h; simp at h
        · rw [if_neg hsz] at h ⊢
          by_cases hfile : info.isFile = false
          · rw [if_pos hfile] at h; simp at h
          · rw [if_neg hfile] at h ⊢
            by_cases hrem : st.available_filesize - (info.size : Int) < 0
            · rw [if_pos hrem] at h; simp at h
            · rw [if_neg hrem]
              exact ⟨hmem, rfl⟩
  · intro v st a r h
    unfold add_recipient at h
    by_cases hv : v a = false
    · rw [if_pos hv] at h; simp at h
    · rw [if_neg hv] at h
      by_cases hm : a ∉ st.cc ∧ a ∉ st.bcc
      · rw [if_pos hm] at h; simpa using h.symm
      · rw [if_neg hm] at h; simpa using h.symm
  · intro v st a r h
    unfold add_cc at h
    by_cases hv : v a = false
    · rw [if_pos hv] at h; simp at h
    · rw [if_neg hv] at h
      by_cases hm : a ∉ st.rec_ ∧ a ∉ st.bcc
      · rw [if_pos hm] at h; simpa using h.symm
      · rw [if_neg hm] at h; simpa using h.symm
  · intro v st a r h
    unfold add_bcc at h
    by_cases hv : v a = false
    · rw [if_pos hv] at h; simp at h
    · rw [if_neg hv] at h
      by_cases hm : a ∉ st.rec_ ∧ a ∉ st.cc
      · rw [if_pos hm] at h; simpa using h.symm
      · rw [if_neg hm] at h; simpa using h.symm
  · intro st errs r h
    unfold send at h
    by_cases hc : st.rec_.card < 1
    · rw [if_pos hc] at h; simp at h
    · rw [if_neg hc] at h
      by_cases he : errs.isEmpty = false
      · rw [if_pos he] at h; simp at h
      · rw [if_neg he] at h; simpa using h.symm

/-- Witness for C10: on a draft that already holds `/tmp/report.txt`,
re-adding it hands back `None` rather than `self`. -/
theorem method_return_values_witness :
    add_attachment fs_report30 ⟨{"/tmp/report.txt"}, 30, 60⟩
      "/tmp/report.txt" = (⟨{"/tmp/report.txt"}, 30, 60⟩, .ok .noneRet) :=
  method_return_values.1 fs_report30 ⟨{"/tmp/report.txt"}, 30, 60⟩
    "/tmp/report.txt" (by decide)

end Manokit
